import Mathlib

/-!
Shallow embedding of `mpl_interactions/pyplot.py` (the only source file of the
repository).  Floating-point axis limits and data values are modelled as
rationals; matplotlib's `Axes` object is modelled as a record of the fields the
source reads and writes (view limits, autoscale flags, title).  External
collaborators (matplotlib artists, numpy's `histogram`, the widget toolkit)
are out of scope for the spec and enter the model either as oracles
(function-typed parameters) or as inputs.
-/

namespace MplInteractions

/-- Value of the `xlim` / `ylim` keyword arguments: either a string policy
(`"auto"`, `"stretch"`, ...) or a fixed tuple of floats. -/
inductive LimSpec where
  | policy (s : String)
  | fixed (lo hi : ℚ)
deriving DecidableEq, Repr

/-- State of a matplotlib axis, restricted to the fields `pyplot.py` touches:
the x/y view limits, the autoscale flags (matplotlib's `set_xlim`/`set_ylim`
turn the corresponding flag off, and `autoscale_view` obeys it), and the
title. -/
structure AxState where
  xlim : ℚ × ℚ
  ylim : ℚ × ℚ
  autoscalex_on : Bool
  autoscaley_on : Bool
  title : String
deriving DecidableEq, Repr

/-- Matplotlib `ax.set_xlim` with its default `auto=False`: stores the limits
and disables x autoscaling. -/
def AxState.set_xlim (ax : AxState) (l : ℚ × ℚ) : AxState :=
  { ax with xlim := l, autoscalex_on := false }

/-- Matplotlib `ax.set_ylim` with its default `auto=False`. -/
def AxState.set_ylim (ax : AxState) (l : ℚ × ℚ) : AxState :=
  { ax with ylim := l, autoscaley_on := false }

/-- Matplotlib `ax.set_title`. -/
def AxState.set_title (ax : AxState) (s : String) : AxState :=
  { ax with title := s }

/-- Matplotlib `ax.autoscale_view(scalex=..., scaley=...)`: rescales each axis
for which the scale flag is passed and autoscaling is on.  What limits the
rescale produces depends on the data limits and margins, which live outside
this repository, so the would-be results `autoX`, `autoY` are oracles. -/
def AxState.autoscale_view (ax : AxState) (autoX autoY : ℚ × ℚ)
    (scalex scaley : Bool) : AxState :=
  let ax := if scalex && ax.autoscalex_on then { ax with xlim := autoX } else ax
  if scaley && ax.autoscaley_on then { ax with ylim := autoY } else ax

/-- Matplotlib data limits (`ax.dataLim`), as read by `interactive_plot.update`:
origin and extent of the bounding box of the data. -/
structure DataLim where
  x0 : ℚ
  y0 : ℚ
  width : ℚ
  height : ℚ
deriving DecidableEq, Repr

/-- Source `stretch(ax, xlims, ylims)` (pyplot.py lines 305-319): reads the
current limits, then widens each axis so that it covers both the current and
the newly computed limits, via
`new_lims[0] if new_lims[0] < cur[0] else cur[0]` and
`new_lims[1] if new_lims[1] > cur[1] else cur[1]`. -/
def stretch (ax : AxState) (xlims ylims : ℚ × ℚ) : AxState :=
  let cur_xlims := ax.xlim
  let cur_ylims := ax.ylim
  let new_lims := ylims
  let new_lims := (if new_lims.1 < cur_ylims.1 then new_lims.1 else cur_ylims.1,
                   if new_lims.2 > cur_ylims.2 then new_lims.2 else cur_ylims.2)
  let ax := ax.set_ylim new_lims
  let new_lims := xlims
  let new_lims := (if new_lims.1 < cur_xlims.1 then new_lims.1 else cur_xlims.1,
                   if new_lims.2 > cur_xlims.2 then new_lims.2 else cur_xlims.2)
  ax.set_xlim new_lims

/-- A matplotlib `Rectangle(xy, width, height)` patch as created by
`simple_hist`. -/
structure Rect where
  x : ℚ
  y : ℚ
  width : ℚ
  height : ℚ
deriving DecidableEq, Repr

/-- Source `simple_hist` (pyplot.py lines 293-302), starting after the
external `np.histogram` call: given the histogram heights and bin edges it
computes `width = bins[1] - bins[0]`, one rectangle `(bins[i], 0)` of height
`heights[i]` per bin, `xlims = (bins.min(), bins.max())` and
`ylims = (0, heights.max() * 1.05)`.  Returns `none` when the arrays are too
short for the indexing / reductions (numpy would raise there). -/
def simple_hist (heights bins : List ℚ) :
    Option ((ℚ × ℚ) × (ℚ × ℚ) × List Rect) :=
  match bins, heights.max?, bins.min?, bins.max? with
  | b0 :: b1 :: rest, some hmax, some bmin, some bmax =>
      let width := b1 - b0
      let new_patches :=
        List.zipWith (fun h b => Rect.mk b 0 width h) heights (b0 :: b1 :: rest)
      some ((bmin, bmax), (0, hmax * 1.05), new_patches)
  | _, _, _, _ => none

/-- Current mapping from parameter name to live value (the `params` dict). -/
def Params := List (String × ℚ)

/-- One call an update callback makes on the axis, in source order.  Used to
reason about which matplotlib entry points a given update cycle invokes. -/
inductive AxEff where
  | relim
  | autoscale_view (scalex scaley : Bool)
  | set_xlim (l : ℚ × ℚ)
  | set_ylim (l : ℚ × ℚ)
  | set_title (s : String)
deriving DecidableEq, Repr

/-- Interpretation of one axis call on the axis state.  `relim` only refreshes
`ax.dataLim` (modelled separately as an input), not the view limits. -/
def applyAxEff (autoX autoY : ℚ × ℚ) (ax : AxState) : AxEff → AxState
  | .relim => ax
  | .autoscale_view sx sy => ax.autoscale_view autoX autoY sx sy
  | .set_xlim l => ax.set_xlim l
  | .set_ylim l => ax.set_ylim l
  | .set_title s => ax.set_title s

/-- Folds a list of axis calls over the axis state. -/
def applyAxEffs (autoX autoY : ℚ × ℚ) (ax : AxState) (effs : List AxEff) :
    AxState :=
  effs.foldl (applyAxEff autoX autoY) ax

/-- Axis calls made by `interactive_plot`'s `update` (pyplot.py lines
182-211), after the line data has been set: read the current limits, `relim`,
then the `ylim` branch (`autoscale_view(scalex=False)` for `"auto"`, the
inline stretch for `"stretch"`, nothing otherwise -- a tuple compares unequal
to both strings), then the same for `xlim` with `autoscale_view(scaley=False)`
and the data-limit x extent, and finally the title. -/
def interactive_plot_update_effs (xlim ylim : LimSpec)
    (cur_xlims cur_ylims : ℚ × ℚ) (dl : DataLim) (fmtTitle : Option String) :
    List AxEff :=
  (AxEff.relim ::
    (if ylim = .policy "auto" then [AxEff.autoscale_view false true]
     else if ylim = .policy "stretch" then
       let new_lims := (dl.y0, dl.y0 + dl.height)
       let new_lims :=
         (if new_lims.1 < cur_ylims.1 then new_lims.1 else cur_ylims.1,
          if new_lims.2 > cur_ylims.2 then new_lims.2 else cur_ylims.2)
       [AxEff.set_ylim new_lims]
     else []) ++
    (if xlim = .policy "auto" then [AxEff.autoscale_view true false]
     else if xlim = .policy "stretch" then
       let new_lims := (dl.x0, dl.x0 + dl.width)
       let new_lims :=
         (if new_lims.1 < cur_xlims.1 then new_lims.1 else cur_xlims.1,
          if new_lims.2 > cur_xlims.2 then new_lims.2 else cur_xlims.2)
       [AxEff.set_xlim new_lims]
     else [])) ++
  (match fmtTitle with
   | some s => [AxEff.set_title s]
   | none => [])

/-- Mutable state an update callback can touch: the `params` mapping handed to
it, the axis, and the artists it owns (`line` data for `interactive_plot`,
the `PatchCollection` paths for `interactive_hist`, the scatter offsets for
`interactive_scatter`, the image data and its norm for `interactive_imshow`). -/
structure World where
  params : Params
  ax : AxState
  lineData : List (ℚ × ℚ)
  paths : List Rect
  offsets : List (ℚ × ℚ)
  imData : List (List ℚ)
  normVmin : Option ℚ
  normVmax : Option ℚ

/-- Source `interactive_plot.update(params, indices)` (pyplot.py lines
182-211).  Evaluating the user's `x`/`y` at `params` is external, so the new
line data (`evalLine`) and the data limits that `ax.relim()` recomputes from
it (`dlOf`) are oracles, as are the limits an `autoscale_view` call would
produce (`autoX`, `autoY`) and the formatted title (`fmtTitle`, `none` when
`title is None`).  The body sets the line data and then performs the axis
calls of `interactive_plot_update_effs`. -/
def interactive_plot_update (xlim ylim : LimSpec)
    (evalLine : Params → List (ℚ × ℚ)) (dlOf : Params → DataLim)
    (autoX autoY : DataLim → ℚ × ℚ) (fmtTitle : Option (Params → String))
    (w : World) : World :=
  let w := { w with lineData := evalLine w.params }
  let cur_xlims := w.ax.xlim
  let cur_ylims := w.ax.ylim
  let dl := dlOf w.params
  let ax := applyAxEffs (autoX dl) (autoY dl) w.ax
    (interactive_plot_update_effs xlim ylim cur_xlims cur_ylims dl
      (fmtTitle.map (fun f => f w.params)))
  { w with ax := ax }

/-- Source `interactive_hist.update(params, indices)` (pyplot.py lines
420-425), body after the `simple_hist` call: the newly computed limits are
fed to `stretch`, the patch collection paths are replaced, and
`ax.autoscale_view()` runs (a no-op on both axes because `stretch` just
called `set_xlim`/`set_ylim`, which disable autoscaling). -/
def interactive_hist_update_steps (new_x new_y : ℚ × ℚ)
    (new_patches : List Rect) (autoX autoY : ℚ × ℚ) (w : World) : World :=
  let w := { w with ax := stretch w.ax new_x new_y }
  let w := { w with paths := new_patches }
  { w with ax := w.ax.autoscale_view autoX autoY true true }

/-- Source `interactive_hist.update`, entry point: `arr = funcs[0](**params)`
followed by `np.histogram` inside `simple_hist` is external, so the histogram
output (heights and bin edges) is the oracle `histOf`; its `simple_hist`
output feeds the steps above.  When `simple_hist` is undefined (numpy would
raise there) the world is left unchanged. -/
def interactive_hist_update (histOf : Params → List ℚ × List ℚ)
    (autoX autoY : ℚ × ℚ) (w : World) : World :=
  match simple_hist (histOf w.params).1 (histOf w.params).2 with
  | none => w
  | some (new_x, new_y, new_patches) =>
      interactive_hist_update_steps new_x new_y new_patches autoX autoY w

/-- Source `interactive_scatter.update(params, indices)` (pyplot.py lines
578-611): sets the title, recomputes each scatter's offsets / colors / sizes
from `params` (external evaluation, oracle `evalOffsets`),
`update_datalim_from_bbox` (lives in `helpers.py`, grows `ax.dataLim` only),
clears the cache and calls `ax.autoscale_view()`. -/
def interactive_scatter_update (evalOffsets : Params → List (ℚ × ℚ))
    (fmtTitle : Option (Params → String)) (autoX autoY : ℚ × ℚ)
    (w : World) : World :=
  let w :=
    match fmtTitle with
    | some f => { w with ax := w.ax.set_title (f w.params) }
    | none => w
  let w := { w with offsets := evalOffsets w.params }
  { w with ax := w.ax.autoscale_view autoX autoY true true }

/-- Source `interactive_imshow.update(params, indices)` (pyplot.py lines
755-767): sets the title, and when `X` is callable replaces the image data
(external evaluation, oracle `evalX`) and autoscales the norm when
`autoscale_cmap` holds, the data is not RGB(A) and `vmin`/`vmax` are absent;
then updates `im.norm.vmin` / `im.norm.vmax` when those arguments are
callable (oracles `vminOf` / `vmaxOf`). -/
def interactive_imshow_update (fmtTitle : Option (Params → String))
    (evalX : Option (Params → List (List ℚ))) (autoscale_cmap : Bool)
    (vminGiven vmaxGiven : Bool) (normScale : List (List ℚ) → ℚ × ℚ)
    (vminOf vmaxOf : Option (Params → ℚ)) (w : World) : World :=
  let w :=
    match fmtTitle with
    | some f => { w with ax := w.ax.set_title (f w.params) }
    | none => w
  let w :=
    match evalX with
    | some f =>
        let new_data := f w.params
        let w := { w with imData := new_data }
        if autoscale_cmap && !vminGiven && !vmaxGiven then
          { w with normVmin := some (normScale new_data).1,
                   normVmax := some (normScale new_data).2 }
        else w
    | none => w
  let w :=
    match vminOf with
    | some f => { w with normVmin := some (f w.params) }
    | none => w
  match vmaxOf with
  | some f => { w with normVmax := some (f w.params) }
  | none => w

/-- A Python positional argument to `interactive_plot`: either a `str` or any
other value (arrays, scalars and callables are opaque here, tagged by an
identifier). -/
inductive PyVal where
  | str (s : String)
  | data (id : ℕ)
deriving DecidableEq, Repr

/-- Result of `interactive_plot`'s positional-argument analysis (pyplot.py
lines 151-172): whether both x and y were given, and the values bound to
`x`, `y`, `fmt`. -/
structure ParsedArgs where
  x_and_y : Bool
  x : Option PyVal
  y : PyVal
  fmt : Option PyVal
deriving DecidableEq, Repr

/-- Outcome of the analysis: `ret_none` for the early `return` on zero
arguments, otherwise the parsed bindings. -/
inductive ParseOutcome where
  | ret_none
  | parsed (p : ParsedArgs)
deriving DecidableEq, Repr

/-- Source pyplot.py lines 151-172: zero args returns immediately; one arg is
`y`; two args are `(y, fmt)` when the second is a `str` and `(x, y)`
otherwise; three args are `(x, y, fmt)`; more raise `ValueError`. -/
def interactive_plot_parse_args (args : List PyVal) :
    Except String ParseOutcome :=
  match args with
  | [] => .ok .ret_none
  | [y] => .ok (.parsed ⟨false, none, y, none⟩)
  | [a, b] =>
      match b with
      | .str s => .ok (.parsed ⟨false, none, a, some (.str s)⟩)
      | .data i => .ok (.parsed ⟨true, some a, .data i, none⟩)
  | [a, b, c] => .ok (.parsed ⟨true, some a, b, some c⟩)
  | _ => .error "You passed in more args than supported."

/-- One externally visible step a top-level `interactive_*` function takes
while building the plot: creating the figure, creating the controls and their
widgets (`gogogo_controls`), registering the update callback for a set of
parameter names (`controls.register_function(update, fig, params.keys())`),
drawing an initial artist, or fixing an axis limit. -/
inductive CallEff where
  | figure
  | make_controls (names : List String)
  | register_update (names : List String)
  | draw
  | init_set_xlim (lo hi : ℚ)
  | init_set_ylim (lo hi : ℚ)
deriving DecidableEq, Repr

/-- Outcome of a top-level call: an exception, the bare `return` (None), or
the controls object. -/
inductive CallRet where
  | value_error (msg : String)
  | ret_none
  | ret_controls
deriving DecidableEq, Repr

/-- Source `interactive_plot` (pyplot.py lines 38-239) at the granularity of
`CallEff`: parse the positional args (any `ValueError` is raised before any
state is created), then figure, controls, one `register_function` call with
`params.keys()`, the initial `ax.plot`, and `set_xlim`/`set_ylim` exactly when
the corresponding argument is not a string. -/
def interactive_plot_model (args : List PyVal) (paramNames : List String)
    (xlim ylim : LimSpec) : List CallEff × CallRet :=
  match interactive_plot_parse_args args with
  | .error msg => ([], .value_error msg)
  | .ok .ret_none => ([], .ret_none)
  | .ok (.parsed _) =>
      ([CallEff.figure, CallEff.make_controls paramNames,
        CallEff.register_update paramNames, CallEff.draw] ++
       (match xlim with
        | .fixed lo hi => [CallEff.init_set_xlim lo hi]
        | .policy _ => []) ++
       (match ylim with
        | .fixed lo hi => [CallEff.init_set_ylim lo hi]
        | .policy _ => []),
       .ret_controls)

/-- The `f` argument of `interactive_hist`: a single function or a sequence of
functions (functions are opaque, tagged by an identifier). -/
inductive FuncArg where
  | single (id : ℕ)
  | seq (ids : List ℕ)
deriving DecidableEq, Repr

/-- Numpy `np.atleast_1d` on `interactive_hist`'s `f`: a bare function is an
object scalar and becomes a one-element array; a sequence of functions keeps
its length. -/
def atleast_1d : FuncArg → List ℕ
  | .single i => [i]
  | .seq l => l

/-- Source `interactive_hist` (pyplot.py lines 322-436) at the granularity of
`CallEff`: `funcs = np.atleast_1d(f)` and the `len(funcs) != 1` check come
before the figure, controls, registration, initial draw and the initial
`set_xlim`/`set_ylim` from `simple_hist`'s limits. -/
def interactive_hist_model (f : FuncArg) (paramNames : List String)
    (init_x init_y : ℚ × ℚ) : List CallEff × CallRet :=
  let funcs := atleast_1d f
  if funcs.length ≠ 1 then
    ([], .value_error "Currently only a single function is supported.")
  else
    ([CallEff.figure, CallEff.make_controls paramNames,
      CallEff.register_update paramNames, CallEff.draw,
      CallEff.init_set_xlim init_x.1 init_x.2,
      CallEff.init_set_ylim init_y.1 init_y.2],
     .ret_controls)

/-- Source `interactive_scatter` (pyplot.py lines 558-561): the x axis
stretches iff `xlim` is a string equal to `"stretch"`. -/
def scatter_stretch_x (xlim : LimSpec) : Bool :=
  match xlim with
  | .policy s => s == "stretch"
  | .fixed _ _ => false

/-- Python `str.lower()`, restricted to the ASCII range that the policy
strings live in: lowercases every character. -/
def pyLower (s : String) : String :=
  ⟨s.data.map Char.toLower⟩

/-- Source `interactive_scatter` (pyplot.py lines 563-566): the y axis
stretches iff `ylim` is a string whose `.lower()` equals `"stretch"`. -/
def scatter_stretch_y (ylim : LimSpec) : Bool :=
  match ylim with
  | .policy s => pyLower s == "stretch"
  | .fixed _ _ => false

/-- Source `interactive_scatter` (pyplot.py lines 439-657) at the granularity
of `CallEff`: after the broadcast and the stretch flags, figure, controls,
one `register_function` call with `params.keys()`, then one initial
`ax.scatter` per broadcast artist. -/
def interactive_scatter_model (paramNames : List String) (nArtists : ℕ) :
    List CallEff × CallRet :=
  ([CallEff.figure, CallEff.make_controls paramNames,
    CallEff.register_update paramNames] ++
   List.replicate nArtists CallEff.draw,
   .ret_controls)

/-- Source `interactive_imshow` (pyplot.py lines 662-793) at the granularity
of `CallEff`: figure, controls, one `register_function` call with
`params.keys()`, then the initial `ax.imshow`. -/
def interactive_imshow_model (paramNames : List String) :
    List CallEff × CallRet :=
  ([CallEff.figure, CallEff.make_controls paramNames,
    CallEff.register_update paramNames, CallEff.draw],
   .ret_controls)

/-- Modelled from the spec: the `Controls` object of `controller.py`, which is
not under src/.  Per the spec it must "wire each widget's change event to a
recomputation of one or more plotted artists", so `register_function` records
the callback together with the parameter names it is registered for, and a
change event on one bound control runs every callback registered for that
parameter on the current world. -/
structure Controls where
  registrations : List ((World → World) × List String)

/-- Modelled from the spec: `controls.register_function(update, fig, names)`
appends the callback with its parameter names. -/
def Controls.register_function (c : Controls) (f : World → World)
    (names : List String) : Controls :=
  { registrations := c.registrations ++ [(f, names)] }

/-- Modelled from the spec: callbacks that a change of the control bound to
`name` triggers. -/
def Controls.callbacks_for (c : Controls) (name : String) :
    List (World → World) :=
  (c.registrations.filter (fun r => decide (name ∈ r.2))).map (fun r => r.1)

/-- Modelled from the spec: a change event on the control bound to `name`
runs every registered callback for `name` on the current world. -/
def Controls.on_change (c : Controls) (name : String) (w : World) : World :=
  (c.callbacks_for name).foldl (fun w f => f w) w

/-! Helper lemmas shared by the claim theorems. -/

theorem if_lt_eq_min (a b : ℚ) : (if a < b then a else b) = min a b := by
  rcases le_or_lt b a with h | h
  · rw [if_neg (not_lt.mpr h), min_eq_right h]
  · rw [if_pos h, min_eq_left h.le]

theorem if_gt_eq_max (a b : ℚ) : (if a > b then a else b) = max a b := by
  rcases le_or_lt a b with h | h
  · rw [if_neg (not_lt.mpr h), max_eq_right h]
  · rw [if_pos h, max_eq_left h.le]

/-- Characterisation of the `stretch` helper: each axis ends at the
min/max combination of the new and current limits, and autoscaling ends
disabled on both axes (it called `set_xlim` and `set_ylim`). -/
theorem stretch_eq (ax : AxState) (xl yl : ℚ × ℚ) :
    stretch ax xl yl =
      { ax with xlim := (min xl.1 ax.xlim.1, max xl.2 ax.xlim.2),
                ylim := (min yl.1 ax.ylim.1, max yl.2 ax.ylim.2),
                autoscalex_on := false, autoscaley_on := false } := by
  simp [stretch, AxState.set_xlim, AxState.set_ylim, if_lt_eq_min, if_gt_eq_max]

theorem Icc_subset_stretched (lo hi nlo nhi : ℚ) :
    Set.Icc lo hi ⊆ Set.Icc (min nlo lo) (max nhi hi) :=
  Set.Icc_subset_Icc (min_le_right _ _) (le_max_right _ _)

/-- Shape of `interactive_plot.update`'s axis calls when both policies are
`"stretch"`. -/
theorem plot_update_effs_stretch_stretch (cx cy : ℚ × ℚ) (dl : DataLim)
    (t : Option String) :
    interactive_plot_update_effs (.policy "stretch") (.policy "stretch")
        cx cy dl t =
      [AxEff.relim,
       AxEff.set_ylim (min dl.y0 cy.1, max (dl.y0 + dl.height) cy.2),
       AxEff.set_xlim (min dl.x0 cx.1, max (dl.x0 + dl.width) cx.2)] ++
      (match t with | some s => [AxEff.set_title s] | none => []) := by
  simp [interactive_plot_update_effs, if_lt_eq_min, if_gt_eq_max]

/-- C1: under the stretch policy, every update cycle only grows the visible
axis range and never shrinks it.  For every current limits and every newly
computed limits, the limits set afterwards are
`(min(new_lo, cur_lo), max(new_hi, cur_hi))`, an interval containing the
previous one; this holds for the `stretch` helper, for the inline stretch
branches of `interactive_plot.update`, and for `interactive_hist.update`. -/
theorem stretch_policy_only_grows (ax : AxState) (xlims ylims : ℚ × ℚ)
    (dl : DataLim) (fmtTitle : Option String) (autoX autoY : ℚ × ℚ)
    (nx ny : ℚ × ℚ) (ps : List Rect) (haX haY : ℚ × ℚ) (w : World)
    (evalLine : Params → List (ℚ × ℚ)) (dlOf : Params → DataLim)
    (autoXF autoYF : DataLim → ℚ × ℚ) (ft : Option (Params → String)) :
    ((stretch ax xlims ylims).xlim =
        (min xlims.1 ax.xlim.1, max xlims.2 ax.xlim.2) ∧
     (stretch ax xlims ylims).ylim =
        (min ylims.1 ax.ylim.1, max ylims.2 ax.ylim.2) ∧
     Set.Icc ax.xlim.1 ax.xlim.2 ⊆
        Set.Icc (stretch ax xlims ylims).xlim.1 (stretch ax xlims ylims).xlim.2 ∧
     Set.Icc ax.ylim.1 ax.ylim.2 ⊆
        Set.Icc (stretch ax xlims ylims).ylim.1 (stretch ax xlims ylims).ylim.2)
    ∧
    ((applyAxEffs autoX autoY ax
        (interactive_plot_update_effs (.policy "stretch") (.policy "stretch")
          ax.xlim ax.ylim dl fmtTitle)).xlim =
        (min dl.x0 ax.xlim.1, max (dl.x0 + dl.width) ax.xlim.2) ∧
     (applyAxEffs autoX autoY ax
        (interactive_plot_update_effs (.policy "stretch") (.policy "stretch")
          ax.xlim ax.ylim dl fmtTitle)).ylim =
        (min dl.y0 ax.ylim.1, max (dl.y0 + dl.height) ax.ylim.2) ∧
     Set.Icc ax.xlim.1 ax.xlim.2 ⊆
        Set.Icc (min dl.x0 ax.xlim.1) (max (dl.x0 + dl.width) ax.xlim.2) ∧
     Set.Icc ax.ylim.1 ax.ylim.2 ⊆
        Set.Icc (min dl.y0 ax.ylim.1) (max (dl.y0 + dl.height) ax.ylim.2))
    ∧
    ((interactive_hist_update_steps nx ny ps haX haY w).ax.xlim =
        (min nx.1 w.ax.xlim.1, max nx.2 w.ax.xlim.2) ∧
     (interactive_hist_update_steps nx ny ps haX haY w).ax.ylim =
        (min ny.1 w.ax.ylim.1, max ny.2 w.ax.ylim.2) ∧
     Set.Icc w.ax.xlim.1 w.ax.xlim.2 ⊆
        Set.Icc (min nx.1 w.ax.xlim.1) (max nx.2 w.ax.xlim.2) ∧
     Set.Icc w.ax.ylim.1 w.ax.ylim.2 ⊆
        Set.Icc (min ny.1 w.ax.ylim.1) (max ny.2 w.ax.ylim.2))
    ∧
    ((interactive_plot_update (.policy "stretch") (.policy "stretch")
        evalLine dlOf autoXF autoYF ft w).ax.xlim =
        (min (dlOf w.params).x0 w.ax.xlim.1,
         max ((dlOf w.params).x0 + (dlOf w.params).width) w.ax.xlim.2) ∧
     (interactive_plot_update (.policy "stretch") (.policy "stretch")
        evalLine dlOf autoXF autoYF ft w).ax.ylim =
        (min (dlOf w.params).y0 w.ax.ylim.1,
         max ((dlOf w.params).y0 + (dlOf w.params).height) w.ax.ylim.2)) := by
  refine ⟨⟨?_, ?_, ?_, ?_⟩, ⟨?_, ?_, ?_, ?_⟩, ⟨?_, ?_, ?_, ?_⟩, ⟨?_, ?_⟩⟩
  · rw [stretch_eq]
  · rw [stretch_eq]
  · rw [stretch_eq]; exact Icc_subset_stretched _ _ _ _
  · rw [stretch_eq]; exact Icc_subset_stretched _ _ _ _
  · rw [plot_update_effs_stretch_stretch]
    rcases fmtTitle with _ | s <;>
      simp [applyAxEffs, applyAxEff, AxState.set_xlim, AxState.set_ylim,
        AxState.set_title]
  · rw [plot_update_effs_stretch_stretch]
    rcases fmtTitle with _ | s <;>
      simp [applyAxEffs, applyAxEff, AxState.set_xlim, AxState.set_ylim,
        AxState.set_title]
  · exact Icc_subset_stretched _ _ _ _
  · exact Icc_subset_stretched _ _ _ _
  · simp [interactive_hist_update_steps, stretch_eq, AxState.autoscale_view]
  · simp [interactive_hist_update_steps, stretch_eq, AxState.autoscale_view]
  · exact Icc_subset_stretched _ _ _ _
  · exact Icc_subset_stretched _ _ _ _
  · show (applyAxEffs (autoXF (dlOf w.params)) (autoYF (dlOf w.params)) w.ax
      (interactive_plot_update_effs (.policy "stretch") (.policy "stretch")
        w.ax.xlim w.ax.ylim (dlOf w.params)
        (ft.map (fun f => f w.params)))).xlim = _
    rw [plot_update_effs_stretch_stretch]
    rcases ft with _ | f <;>
      simp [applyAxEffs, applyAxEff, AxState.set_xlim, AxState.set_ylim,
        AxState.set_title]
  · show (applyAxEffs (autoXF (dlOf w.params)) (autoYF (dlOf w.params)) w.ax
      (interactive_plot_update_effs (.policy "stretch") (.policy "stretch")
        w.ax.xlim w.ax.ylim (dlOf w.params)
        (ft.map (fun f => f w.params)))).ylim = _
    rw [plot_update_effs_stretch_stretch]
    rcases ft with _ | f <;>
      simp [applyAxEffs, applyAxEff, AxState.set_xlim, AxState.set_ylim,
        AxState.set_title]

/-- C1 witness: the `stretch` helper on concrete limits widens the x axis to
the min/max combination. -/
theorem stretch_policy_only_grows_witness :
    (stretch ⟨(0, 1), (0, 1), true, true, ""⟩ (-1, 2) (0, 3)).xlim =
      (min (-1 : ℚ) 0, max 2 1) :=
  (stretch_policy_only_grows ⟨(0, 1), (0, 1), true, true, ""⟩ (-1, 2) (0, 3)
    ⟨0, 0, 1, 1⟩ none (0, 1) (0, 1) (0, 1) (0, 1) [] (0, 1) (0, 1)
    ⟨[], ⟨(0, 1), (0, 1), true, true, ""⟩, [], [], [], [], none, none⟩
    (fun _ => []) (fun _ => ⟨0, 0, 1, 1⟩) (fun _ => (0, 1)) (fun _ => (0, 1))
    none).1.1

/-- C2 counterexample: `interactive_scatter` does not select the stretch
policy under the same condition on both axes.  For the string `"Stretch"`
the x axis is not stretched (the x condition compares to `"stretch"`
exactly) while the y axis is (the y condition lowercases first). -/
theorem scatter_stretch_flags_differ_on_case :
    scatter_stretch_x (.policy "Stretch") = false ∧
    scatter_stretch_y (.policy "Stretch") = true ∧
    scatter_stretch_x (.policy "Stretch") ≠
      scatter_stretch_y (.policy "Stretch") := by
  refine ⟨by decide, by decide, by decide⟩

/-- C2 amended: `interactive_scatter` selects stretching for the x axis iff
the limit string equals `"stretch"` exactly, and for the y axis iff its
lowercasing equals `"stretch"`; the two conditions coincide for every string
that is already lowercase (in particular for the documented options), but can
differ on case variants such as `"Stretch"`. -/
theorem scatter_stretch_flags_agree_on_lowercase (v : String)
    (h : pyLower v = v) :
    scatter_stretch_x (.policy v) = scatter_stretch_y (.policy v) ∧
    (scatter_stretch_x (.policy v) = true ↔ v = "stretch") := by
  constructor
  · simp [scatter_stretch_x, scatter_stretch_y, h]
  · simp [scatter_stretch_x]

/-- C2 witness: the amended statement at the lowercase string `"stretch"`. -/
theorem scatter_stretch_flags_agree_on_lowercase_witness :
    scatter_stretch_x (.policy "stretch") = scatter_stretch_y (.policy "stretch") ∧
    (scatter_stretch_x (.policy "stretch") = true ↔ "stretch" = "stretch") :=
  scatter_stretch_flags_agree_on_lowercase "stretch" (by decide)

/-- Axis calls that neither `set_xlim` nor autoscale x leave `xlim` alone. -/
theorem applyAxEffs_xlim_frame (autoX autoY : ℚ × ℚ) (effs : List AxEff)
    (ax : AxState)
    (h : ∀ e ∈ effs,
      (∀ l, e ≠ AxEff.set_xlim l) ∧ ∀ sy, e ≠ AxEff.autoscale_view true sy) :
    (applyAxEffs autoX autoY ax effs).xlim = ax.xlim := by
  induction effs generalizing ax with
  | nil => rfl
  | cons e rest ih =>
    have he := h e (List.mem_cons_self e rest)
    have step : (applyAxEff autoX autoY ax e).xlim = ax.xlim := by
      cases e with
      | relim => rfl
      | set_ylim l => rfl
      | set_title s => rfl
      | set_xlim l => exact absurd rfl (he.1 l)
      | autoscale_view sx sy =>
        cases sx with
        | true => exact absurd rfl (he.2 sy)
        | false =>
          show (ax.autoscale_view autoX autoY false sy).xlim = ax.xlim
          cases hsy : (sy && ax.autoscaley_on) <;>
            simp [AxState.autoscale_view, hsy]
    calc (applyAxEffs autoX autoY ax (e :: rest)).xlim
        = (applyAxEffs autoX autoY (applyAxEff autoX autoY ax e) rest).xlim :=
          rfl
      _ = (applyAxEff autoX autoY ax e).xlim :=
          ih _ (fun e' h' => h e' (List.mem_cons_of_mem _ h'))
      _ = ax.xlim := step

/-- Axis calls that neither `set_ylim` nor autoscale y leave `ylim` alone. -/
theorem applyAxEffs_ylim_frame (autoX autoY : ℚ × ℚ) (effs : List AxEff)
    (ax : AxState)
    (h : ∀ e ∈ effs,
      (∀ l, e ≠ AxEff.set_ylim l) ∧ ∀ sx, e ≠ AxEff.autoscale_view sx true) :
    (applyAxEffs autoX autoY ax effs).ylim = ax.ylim := by
  induction effs generalizing ax with
  | nil => rfl
  | cons e rest ih =>
    have he := h e (List.mem_cons_self e rest)
    have step : (applyAxEff autoX autoY ax e).ylim = ax.ylim := by
      cases e with
      | relim => rfl
      | set_xlim l => rfl
      | set_title s => rfl
      | set_ylim l => exact absurd rfl (he.1 l)
      | autoscale_view sx sy =>
        cases sy with
        | true => exact absurd rfl (he.2 sx)
        | false =>
          show (ax.autoscale_view autoX autoY sx false).ylim = ax.ylim
          cases hsx : (sx && ax.autoscalex_on) <;>
            simp [AxState.autoscale_view, hsx]
    calc (applyAxEffs autoX autoY ax (e :: rest)).ylim
        = (applyAxEffs autoX autoY (applyAxEff autoX autoY ax e) rest).ylim :=
          rfl
      _ = (applyAxEff autoX autoY ax e).ylim :=
          ih _ (fun e' h' => h e' (List.mem_cons_of_mem _ h'))
      _ = ax.ylim := step

/-- With a fixed (tuple) `xlim`, no axis call of `interactive_plot.update`
writes the x view limits: the x branch is skipped entirely and the `"auto"` y
branch passes `scalex=False`. -/
theorem plot_update_effs_fixed_x_frame (lo hi : ℚ) (other : LimSpec)
    (cx cy : ℚ × ℚ) (dl : DataLim) (t : Option String) :
    ∀ e ∈ interactive_plot_update_effs (.fixed lo hi) other cx cy dl t,
      (∀ l, e ≠ AxEff.set_xlim l) ∧ ∀ sy, e ≠ AxEff.autoscale_view true sy := by
  intro e he
  refine ⟨fun l hEq => ?_, fun sy hEq => ?_⟩ <;> subst hEq <;>
    rcases t with _ | s <;>
    simp only [interactive_plot_update_effs] at he <;>
    split_ifs at he <;> simp_all

/-- With a fixed (tuple) `ylim`, no axis call of `interactive_plot.update`
writes the y view limits. -/
theorem plot_update_effs_fixed_y_frame (lo hi : ℚ) (other : LimSpec)
    (cx cy : ℚ × ℚ) (dl : DataLim) (t : Option String) :
    ∀ e ∈ interactive_plot_update_effs other (.fixed lo hi) cx cy dl t,
      (∀ l, e ≠ AxEff.set_ylim l) ∧ ∀ sx, e ≠ AxEff.autoscale_view sx true := by
  intro e he
  refine ⟨fun l hEq => ?_, fun sx hEq => ?_⟩ <;> subst hEq <;>
    rcases t with _ | s <;>
    simp only [interactive_plot_update_effs] at he <;>
    split_ifs at he <;> simp_all

/-- One update cycle of `interactive_plot` with a fixed `xlim` leaves the x
view limits untouched, whatever the y policy is. -/
theorem plot_update_fixed_x_step (lo hi : ℚ) (other : LimSpec)
    (evalLine : Params → List (ℚ × ℚ)) (dlOf : Params → DataLim)
    (autoX autoY : DataLim → ℚ × ℚ) (ft : Option (Params → String))
    (w : World) :
    (interactive_plot_update (.fixed lo hi) other evalLine dlOf autoX autoY
        ft w).ax.xlim = w.ax.xlim :=
  applyAxEffs_xlim_frame _ _ _ _ (plot_update_effs_fixed_x_frame _ _ _ _ _ _ _)

/-- One update cycle of `interactive_plot` with a fixed `ylim` leaves the y
view limits untouched, whatever the x policy is. -/
theorem plot_update_fixed_y_step (lo hi : ℚ) (other : LimSpec)
    (evalLine : Params → List (ℚ × ℚ)) (dlOf : Params → DataLim)
    (autoX autoY : DataLim → ℚ × ℚ) (ft : Option (Params → String))
    (w : World) :
    (interactive_plot_update other (.fixed lo hi) evalLine dlOf autoX autoY
        ft w).ax.ylim = w.ax.ylim :=
  applyAxEffs_ylim_frame _ _ _ _ (plot_update_effs_fixed_y_frame _ _ _ _ _ _ _)

/-- C3: under the fixed policy (a tuple `xlim`/`ylim`), `interactive_plot`
sets that axis's limits exactly once at creation, no update cycle ever calls
`set_xlim`/`set_ylim` for that axis (nor an autoscale of it), and the fixed
limits stay unchanged across any number of update cycles. -/
theorem fixed_policy_limits_stable (lo hi : ℚ) (args : List PyVal)
    (paramNames : List String) (other : LimSpec) (cx cy : ℚ × ℚ)
    (dl : DataLim) (t : Option String)
    (evalLine : Params → List (ℚ × ℚ)) (dlOf : Params → DataLim)
    (autoX autoY : DataLim → ℚ × ℚ) (ft : Option (Params → String))
    (w : World) (n : ℕ) (p : ParsedArgs)
    (hp : interactive_plot_parse_args args = .ok (.parsed p)) :
    ((interactive_plot_model args paramNames (.fixed lo hi) other).1.filter
        (fun e => match e with
          | CallEff.init_set_xlim _ _ => true
          | _ => false) =
      [CallEff.init_set_xlim lo hi]) ∧
    (∀ l, AxEff.set_xlim l ∉
      interactive_plot_update_effs (.fixed lo hi) other cx cy dl t) ∧
    (((interactive_plot_update (.fixed lo hi) other evalLine dlOf autoX autoY
        ft)^[n] w).ax.xlim = w.ax.xlim) ∧
    ((interactive_plot_model args paramNames other (.fixed lo hi)).1.filter
        (fun e => match e with
          | CallEff.init_set_ylim _ _ => true
          | _ => false) =
      [CallEff.init_set_ylim lo hi]) ∧
    (∀ l, AxEff.set_ylim l ∉
      interactive_plot_update_effs other (.fixed lo hi) cx cy dl t) ∧
    (((interactive_plot_update other (.fixed lo hi) evalLine dlOf autoX autoY
        ft)^[n] w).ax.ylim = w.ax.ylim) := by
  refine ⟨?_, ?_, ?_, ?_, ?_, ?_⟩
  · rcases other with s | ⟨lo2, hi2⟩ <;>
      simp [interactive_plot_model, hp, List.filter]
  · intro l hl
    exact ((plot_update_effs_fixed_x_frame lo hi other cx cy dl t) _ hl).1 l rfl
  · induction n generalizing w with
    | zero => rfl
    | succ n ih =>
        rw [Function.iterate_succ_apply, ih]
        exact plot_update_fixed_x_step lo hi other evalLine dlOf autoX autoY
          ft w
  · rcases other with s | ⟨lo2, hi2⟩ <;>
      simp [interactive_plot_model, hp, List.filter]
  · intro l hl
    exact ((plot_update_effs_fixed_y_frame lo hi other cx cy dl t) _ hl).1 l rfl
  · induction n generalizing w with
    | zero => rfl
    | succ n ih =>
        rw [Function.iterate_succ_apply, ih]
        exact plot_update_fixed_y_step lo hi other evalLine dlOf autoX autoY
          ft w

/-- C3 witness: concrete instantiation with one positional argument, fixed
x limits `(0, 1)`, `ylim="stretch"`, and two update cycles. -/
theorem fixed_policy_limits_stable_witness :
    (interactive_plot_model [PyVal.data 0] ["tau"] (.fixed 0 1)
        (.policy "stretch")).1.filter
        (fun e => match e with
          | CallEff.init_set_xlim _ _ => true
          | _ => false) =
      [CallEff.init_set_xlim 0 1] ∧
    (((interactive_plot_update (.fixed 0 1) (.policy "stretch")
        (fun _ => []) (fun _ => ⟨0, 0, 1, 1⟩) (fun _ => (0, 1))
        (fun _ => (0, 1)) none)^[2]
        ⟨[], ⟨(0, 1), (0, 1), true, true, ""⟩, [], [], [], [], none, none⟩).ax.xlim =
      (⟨[], ⟨(0, 1), (0, 1), true, true, ""⟩, [], [], [], [], none,
        none⟩ : World).ax.xlim) := by
  have h := fixed_policy_limits_stable 0 1 [PyVal.data 0] ["tau"]
    (.policy "stretch") (0, 1) (0, 1) ⟨0, 0, 1, 1⟩ none (fun _ => [])
    (fun _ => ⟨0, 0, 1, 1⟩) (fun _ => (0, 1)) (fun _ => (0, 1)) none
    ⟨[], ⟨(0, 1), (0, 1), true, true, ""⟩, [], [], [], [], none, none⟩ 2
    ⟨false, none, PyVal.data 0, none⟩ rfl
  exact ⟨h.1, h.2.2.1⟩

/-- The y side of the axis state (limits and autoscale flag) never depends on
the x autoscale oracle: an x rescale writes only x fields. -/
theorem applyAxEffs_y_indep_of_autoX (autoX autoX' autoY : ℚ × ℚ)
    (effs : List AxEff) (ax1 ax2 : AxState) (hy : ax1.ylim = ax2.ylim)
    (hf : ax1.autoscaley_on = ax2.autoscaley_on) :
    (applyAxEffs autoX autoY ax1 effs).ylim =
      (applyAxEffs autoX' autoY ax2 effs).ylim ∧
    (applyAxEffs autoX autoY ax1 effs).autoscaley_on =
      (applyAxEffs autoX' autoY ax2 effs).autoscaley_on := by
  induction effs generalizing ax1 ax2 with
  | nil => exact ⟨hy, hf⟩
  | cons e rest ih =>
    refine ih (applyAxEff autoX autoY ax1 e) (applyAxEff autoX' autoY ax2 e)
      ?_ ?_ <;>
    cases e <;>
      simp only [applyAxEff, AxState.autoscale_view, AxState.set_xlim,
        AxState.set_ylim, AxState.set_title] <;>
      (try split_ifs) <;> simp_all

/-- The x side of the axis state never depends on the y autoscale oracle. -/
theorem applyAxEffs_x_indep_of_autoY (autoX autoY autoY' : ℚ × ℚ)
    (effs : List AxEff) (ax1 ax2 : AxState) (hx : ax1.xlim = ax2.xlim)
    (hf : ax1.autoscalex_on = ax2.autoscalex_on) :
    (applyAxEffs autoX autoY ax1 effs).xlim =
      (applyAxEffs autoX autoY' ax2 effs).xlim ∧
    (applyAxEffs autoX autoY ax1 effs).autoscalex_on =
      (applyAxEffs autoX autoY' ax2 effs).autoscalex_on := by
  induction effs generalizing ax1 ax2 with
  | nil => exact ⟨hx, hf⟩
  | cons e rest ih =>
    refine ih (applyAxEff autoX autoY ax1 e) (applyAxEff autoX autoY' ax2 e)
      ?_ ?_ <;>
    cases e <;>
      simp only [applyAxEff, AxState.autoscale_view, AxState.set_xlim,
        AxState.set_ylim, AxState.set_title] <;>
      (try split_ifs) <;> simp_all

set_option maxHeartbeats 1600000 in
/-- C4: in `interactive_plot.update`, the `"auto"` policy on one axis never
rescales the other.  `autoscale_view(scalex=True, scaley=False)` is called iff
`xlim == "auto"`, `autoscale_view(scalex=False, scaley=True)` iff
`ylim == "auto"`, no call ever scales both axes, and consequently the final y
limits never depend on the x autoscale result nor the final x limits on the y
autoscale result. -/
theorem auto_policy_scales_only_its_axis (xlim ylim : LimSpec)
    (cx cy : ℚ × ℚ) (dl : DataLim) (t : Option String)
    (autoX autoX' autoY autoY' : ℚ × ℚ) (ax : AxState) :
    ((AxEff.autoscale_view true false ∈
        interactive_plot_update_effs xlim ylim cx cy dl t) ↔
      xlim = .policy "auto") ∧
    ((AxEff.autoscale_view false true ∈
        interactive_plot_update_effs xlim ylim cx cy dl t) ↔
      ylim = .policy "auto") ∧
    (∀ sx sy, AxEff.autoscale_view sx sy ∈
        interactive_plot_update_effs xlim ylim cx cy dl t →
      sx = false ∨ sy = false) ∧
    ((applyAxEffs autoX autoY ax
        (interactive_plot_update_effs xlim ylim cx cy dl t)).ylim =
      (applyAxEffs autoX' autoY ax
        (interactive_plot_update_effs xlim ylim cx cy dl t)).ylim) ∧
    ((applyAxEffs autoX autoY ax
        (interactive_plot_update_effs xlim ylim cx cy dl t)).xlim =
      (applyAxEffs autoX autoY' ax
        (interactive_plot_update_effs xlim ylim cx cy dl t)).xlim) := by
  refine ⟨?_, ?_, ?_, ?_, ?_⟩
  · constructor
    · intro h
      rcases t with _ | s <;>
        simp only [interactive_plot_update_effs] at h <;>
        split_ifs at h <;> simp_all
    · intro h
      subst h
      rcases t with _ | s <;>
        simp [interactive_plot_update_effs]
  · constructor
    · intro h
      rcases t with _ | s <;>
        simp only [interactive_plot_update_effs] at h <;>
        split_ifs at h <;> simp_all
    · intro h
      subst h
      rcases t with _ | s <;>
        simp [interactive_plot_update_effs]
  · intro sx sy h
    rcases t with _ | s <;>
      simp only [interactive_plot_update_effs] at h <;>
      split_ifs at h <;> simp_all <;> tauto
  · exact (applyAxEffs_y_indep_of_autoX autoX autoX' autoY _ ax ax rfl rfl).1
  · exact (applyAxEffs_x_indep_of_autoY autoX autoY autoY' _ ax ax rfl rfl).1

/-- C4 witness: with `xlim="auto"` the update issues the x-only autoscale
call. -/
theorem auto_policy_scales_only_its_axis_witness :
    AxEff.autoscale_view true false ∈
      interactive_plot_update_effs (.policy "auto") (.policy "stretch")
        (0, 1) (0, 1) ⟨0, 0, 1, 1⟩ none :=
  (auto_policy_scales_only_its_axis (.policy "auto") (.policy "stretch")
    (0, 1) (0, 1) ⟨0, 0, 1, 1⟩ none (0, 1) (0, 1) (0, 1) (0, 1)
    ⟨(0, 1), (0, 1), true, true, ""⟩).1.mpr rfl

/-- Recogniser for the `register_function` step in a creation trace. -/
def isRegisterEff : CallEff → Bool
  | .register_update _ => true
  | _ => false

theorem filter_replicate_draw (n : ℕ) :
    (List.replicate n CallEff.draw).filter isRegisterEff = [] := by
  induction n with
  | zero => rfl
  | succ n ih => simp [List.replicate_succ, List.filter, isRegisterEff, ih]

/-- C5: each of `interactive_plot` (with 1 to 3 positional arguments),
`interactive_hist` (with a single function), `interactive_scatter` and
`interactive_imshow` performs exactly one `register_function` call before
returning, and registers the update callback for every parameter name of the
params mapping. -/
theorem each_function_registers_exactly_once (args : List PyVal)
    (paramNames : List String) (xlim ylim : LimSpec) (f : FuncArg)
    (ix iy : ℚ × ℚ) (nArtists : ℕ)
    (h1 : 1 ≤ args.length) (h3 : args.length ≤ 3)
    (hf : (atleast_1d f).length = 1) :
    ((interactive_plot_model args paramNames xlim ylim).1.filter
        isRegisterEff = [CallEff.register_update paramNames]) ∧
    ((interactive_hist_model f paramNames ix iy).1.filter
        isRegisterEff = [CallEff.register_update paramNames]) ∧
    ((interactive_scatter_model paramNames nArtists).1.filter
        isRegisterEff = [CallEff.register_update paramNames]) ∧
    ((interactive_imshow_model paramNames).1.filter
        isRegisterEff = [CallEff.register_update paramNames]) := by
  refine ⟨?_, ?_, ?_, ?_⟩
  · rcases args with _ | ⟨a, _ | ⟨b, _ | ⟨c, _ | ⟨d, rest⟩⟩⟩⟩
    · simp at h1
    · rcases xlim with s | ⟨lo, hi⟩ <;> rcases ylim with s' | ⟨lo', hi'⟩ <;>
        simp [interactive_plot_model, interactive_plot_parse_args,
          List.filter, isRegisterEff]
    · rcases b with s | i <;>
        rcases xlim with sx | ⟨lo, hi⟩ <;> rcases ylim with sy | ⟨lo', hi'⟩ <;>
        simp [interactive_plot_model, interactive_plot_parse_args,
          List.filter, isRegisterEff]
    · rcases xlim with sx | ⟨lo, hi⟩ <;> rcases ylim with sy | ⟨lo', hi'⟩ <;>
        simp [interactive_plot_model, interactive_plot_parse_args,
          List.filter, isRegisterEff]
    · simp at h3
  · simp [interactive_hist_model, hf, List.filter, isRegisterEff]
  · simp [interactive_scatter_model, List.filter, isRegisterEff,
      filter_replicate_draw]
  · simp [interactive_imshow_model, List.filter, isRegisterEff]

/-- C5 witness: one positional argument, one function, two scatter artists. -/
theorem each_function_registers_exactly_once_witness :
    ((interactive_plot_model [PyVal.data 0] ["tau", "beta"]
        (.policy "stretch") (.policy "stretch")).1.filter
        isRegisterEff = [CallEff.register_update ["tau", "beta"]]) ∧
    ((interactive_hist_model (.single 0) ["tau", "beta"] (0, 1) (0, 1)).1.filter
        isRegisterEff = [CallEff.register_update ["tau", "beta"]]) ∧
    ((interactive_scatter_model ["tau", "beta"] 2).1.filter
        isRegisterEff = [CallEff.register_update ["tau", "beta"]]) ∧
    ((interactive_imshow_model ["tau", "beta"]).1.filter
        isRegisterEff = [CallEff.register_update ["tau", "beta"]]) :=
  each_function_registers_exactly_once [PyVal.data 0] ["tau", "beta"]
    (.policy "stretch") (.policy "stretch") (.single 0) (0, 1) (0, 1) 2
    (by decide) (by decide) (by decide)

/-- C6: when `interactive_imshow` has registered its update callback for the
parameter names (as it does via `controls.register_function(update, fig,
params.keys())`), a change event on any bound control runs exactly that
callback on the current world, re-rendering the artists from the current
parameter values. -/
theorem control_change_triggers_update (fmtTitle : Option (Params → String))
    (evalX : Option (Params → List (List ℚ))) (acm vg1 vg2 : Bool)
    (ns : List (List ℚ) → ℚ × ℚ) (vminOf vmaxOf : Option (Params → ℚ))
    (paramNames : List String) (name : String) (w : World)
    (hname : name ∈ paramNames) :
    (Controls.register_function ⟨[]⟩
        (interactive_imshow_update fmtTitle evalX acm vg1 vg2 ns vminOf
          vmaxOf) paramNames).on_change name w =
      interactive_imshow_update fmtTitle evalX acm vg1 vg2 ns vminOf vmaxOf
        w := by
  simp [Controls.on_change, Controls.callbacks_for, Controls.register_function,
    List.filter, hname]

/-- C6 witness: a single parameter `"tau"` and a concrete world. -/
theorem control_change_triggers_update_witness :
    (Controls.register_function ⟨[]⟩
        (interactive_imshow_update none none false false false
          (fun _ => (0, 1)) none none) ["tau"]).on_change "tau"
        ⟨[], ⟨(0, 1), (0, 1), true, true, ""⟩, [], [], [], [], none, none⟩ =
      interactive_imshow_update none none false false false
        (fun _ => (0, 1)) none none
        ⟨[], ⟨(0, 1), (0, 1), true, true, ""⟩, [], [], [], [], none, none⟩ :=
  control_change_triggers_update none none false false false
    (fun _ => (0, 1)) none none ["tau"] "tau"
    ⟨[], ⟨(0, 1), (0, 1), true, true, ""⟩, [], [], [], [], none, none⟩
    (by simp)

/-- C7: none of the four update callbacks ever mutates the params mapping:
the mapping from parameter name to live value is identical before and after
any invocation. -/
theorem update_callbacks_preserve_params (xlim ylim : LimSpec)
    (evalLine : Params → List (ℚ × ℚ)) (dlOf : Params → DataLim)
    (autoX autoY : DataLim → ℚ × ℚ) (ft : Option (Params → String))
    (histOf : Params → List ℚ × List ℚ) (hx hy : ℚ × ℚ)
    (evalOffsets : Params → List (ℚ × ℚ)) (fts : Option (Params → String))
    (sx sy : ℚ × ℚ)
    (fti : Option (Params → String)) (evalX : Option (Params → List (List ℚ)))
    (acm vg1 vg2 : Bool) (ns : List (List ℚ) → ℚ × ℚ)
    (vminOf vmaxOf : Option (Params → ℚ)) (w : World) :
    (interactive_plot_update xlim ylim evalLine dlOf autoX autoY ft
        w).params = w.params ∧
    (interactive_hist_update histOf hx hy w).params = w.params ∧
    (interactive_scatter_update evalOffsets fts sx sy w).params = w.params ∧
    (interactive_imshow_update fti evalX acm vg1 vg2 ns vminOf vmaxOf
        w).params = w.params := by
  refine ⟨rfl, ?_, ?_, ?_⟩
  · rcases hs : simple_hist (histOf w.params).1 (histOf w.params).2 with
      _ | ⟨nx, ny, ps⟩ <;>
      simp [interactive_hist_update, hs, interactive_hist_update_steps]
  · rcases fts with _ | f <;> rfl
  · rcases fti with _ | f <;> rcases evalX with _ | g <;>
      rcases vminOf with _ | v1 <;> rcases vmaxOf with _ | v2 <;>
      simp [interactive_imshow_update] <;> split <;> rfl

/-- C8: for a histogram with `n ≥ 1` bins, edges `bins[0..n]` and heights
`heights[0..n-1]`, `simple_hist` returns `xlims = (min of the edges, max of
the edges)`, `ylims = (0, 1.05 * max height)`, and exactly `n` rectangles,
the i-th anchored at `(bins[i], 0)` with height `heights[i]`, all sharing the
width `bins[1] - bins[0]` (also when the edges are not uniformly spaced). -/
theorem simple_hist_spec (heights bins : List ℚ) (n : ℕ)
    (hn : 0 < n) (hh : heights.length = n) (hb : bins.length = n + 1) :
    ∃ xl yl ps, simple_hist heights bins = some (xl, yl, ps) ∧
      xl.1 ∈ bins ∧ (∀ b ∈ bins, xl.1 ≤ b) ∧
      xl.2 ∈ bins ∧ (∀ b ∈ bins, b ≤ xl.2) ∧
      yl.1 = 0 ∧
      (∃ hm, hm ∈ heights ∧ (∀ h ∈ heights, h ≤ hm) ∧ yl.2 = hm * 1.05) ∧
      ps.length = n ∧
      ∀ i, i < n →
        ps.getD i ⟨0, 0, 0, 0⟩ =
          ⟨bins.getD i 0, 0, bins.getD 1 0 - bins.getD 0 0,
            heights.getD i 0⟩ := by
  rcases bins with _ | ⟨b0, bins1⟩
  · simp at hb
  rcases bins1 with _ | ⟨b1, rest⟩
  · simp at hb; omega
  rcases heights with _ | ⟨h0, hrest⟩
  · simp at hh; omega
  have hminb : (b0 :: b1 :: rest).min? = some ((b1 :: rest).foldl min b0) := rfl
  have hmaxb : (b0 :: b1 :: rest).max? = some ((b1 :: rest).foldl max b0) := rfl
  have hmaxh : (h0 :: hrest).max? = some (hrest.foldl max h0) := rfl
  have hlen : (List.zipWith (fun h b => Rect.mk b 0 (b1 - b0) h)
      (h0 :: hrest) (b0 :: b1 :: rest)).length = n := by
    rw [List.length_zipWith, hh, hb]; omega
  refine ⟨((b1 :: rest).foldl min b0, (b1 :: rest).foldl max b0),
    (0, (hrest.foldl max h0) * 1.05),
    List.zipWith (fun h b => Rect.mk b 0 (b1 - b0) h) (h0 :: hrest)
      (b0 :: b1 :: rest), rfl, ?_, ?_, ?_, ?_, rfl, ?_, hlen, ?_⟩
  · exact List.min?_mem (fun a b => min_choice a b) hminb
  · exact fun b hm =>
      (List.le_min?_iff (fun _ _ _ => le_min_iff) hminb).mp (le_refl _) b hm
  · exact List.max?_mem (fun a b => max_choice a b) hmaxb
  · exact fun b hm =>
      (List.max?_le_iff (fun _ _ _ => max_le_iff) hmaxb).mp (le_refl _) b hm
  · exact ⟨hrest.foldl max h0,
      List.max?_mem (fun a b => max_choice a b) hmaxh,
      fun x hm =>
        (List.max?_le_iff (fun _ _ _ => max_le_iff) hmaxh).mp (le_refl _) x hm,
      rfl⟩
  · intro i hi
    have hips : i < (List.zipWith (fun h b => Rect.mk b 0 (b1 - b0) h)
        (h0 :: hrest) (b0 :: b1 :: rest)).length := by rw [hlen]; exact hi
    have hib : i < (b0 :: b1 :: rest).length := by rw [hb]; omega
    have hihs : i < (h0 :: hrest).length := by rw [hh]; exact hi
    rw [List.getD_eq_getElem _ _ hips, List.getD_eq_getElem _ _ hib,
      List.getD_eq_getElem _ _ hihs, List.getElem_zipWith]
    rfl

/-- C8 witness: two bins with non-uniform edges `0, 1, 4` and heights
`1, 3`. -/
theorem simple_hist_spec_witness :
    0 < 2 ∧
    (∃ xl yl ps, simple_hist [(1 : ℚ), 3] [0, 1, 4] = some (xl, yl, ps) ∧
      xl.1 ∈ [(0 : ℚ), 1, 4] ∧ (∀ b ∈ [(0 : ℚ), 1, 4], xl.1 ≤ b) ∧
      xl.2 ∈ [(0 : ℚ), 1, 4] ∧ (∀ b ∈ [(0 : ℚ), 1, 4], b ≤ xl.2) ∧
      yl.1 = 0 ∧
      (∃ hm, hm ∈ [(1 : ℚ), 3] ∧ (∀ h ∈ [(1 : ℚ), 3], h ≤ hm) ∧
        yl.2 = hm * 1.05) ∧
      ps.length = 2 ∧
      ∀ i, i < 2 →
        ps.getD i ⟨0, 0, 0, 0⟩ =
          ⟨[(0 : ℚ), 1, 4].getD i 0, 0,
            [(0 : ℚ), 1, 4].getD 1 0 - [(0 : ℚ), 1, 4].getD 0 0,
            [(1 : ℚ), 3].getD i 0⟩) :=
  ⟨by decide, simple_hist_spec [1, 3] [0, 1, 4] 2 (by decide) (by decide)
    (by decide)⟩

/-- C9: `interactive_plot` raises `ValueError` iff more than three positional
arguments are passed; with zero positional arguments it returns `None`
having performed no creation step (no figure, controls or widget); and with
exactly two positional arguments the second is interpreted as a format
string iff it is a `str`, otherwise the pair is interpreted as x and y. -/
theorem plot_positional_arg_analysis (args : List PyVal)
    (paramNames : List String) (xlim ylim : LimSpec) (a : PyVal) (s : String)
    (i : ℕ) :
    ((∃ msg, (interactive_plot_model args paramNames xlim ylim).2 =
        .value_error msg) ↔ 3 < args.length) ∧
    (args = [] →
      interactive_plot_model args paramNames xlim ylim = ([], .ret_none)) ∧
    (interactive_plot_parse_args [a, .str s] =
      .ok (.parsed ⟨false, none, a, some (.str s)⟩)) ∧
    (interactive_plot_parse_args [a, .data i] =
      .ok (.parsed ⟨true, some a, .data i, none⟩)) := by
  refine ⟨?_, ?_, rfl, rfl⟩
  · rcases args with _ | ⟨x1, _ | ⟨x2, _ | ⟨x3, _ | ⟨x4, rest⟩⟩⟩⟩
    · simp [interactive_plot_model, interactive_plot_parse_args]
    · simp [interactive_plot_model, interactive_plot_parse_args]
    · rcases x2 with s2 | i2 <;>
        simp [interactive_plot_model, interactive_plot_parse_args]
    · simp [interactive_plot_model, interactive_plot_parse_args]
    · simp [interactive_plot_model, interactive_plot_parse_args]
  · intro h
    subst h
    rfl

/-- C9 witness: zero positional arguments return `None` with an empty
creation trace. -/
theorem plot_positional_arg_analysis_witness :
    interactive_plot_model [] ["tau"] (.policy "stretch") (.policy "auto") =
      ([], .ret_none) :=
  (plot_positional_arg_analysis [] ["tau"] (.policy "stretch")
    (.policy "auto") (PyVal.data 0) "ro" 1).2.1 rfl

/-- C10: `interactive_hist` raises `ValueError` iff `np.atleast_1d(f)` does
not contain exactly one function, the check happens before any figure,
controls or widget state is created (the trace on error is empty), and with
exactly one function the call succeeds. -/
theorem hist_single_function_check (f : FuncArg) (paramNames : List String)
    (ix iy : ℚ × ℚ) :
    ((∃ msg, (interactive_hist_model f paramNames ix iy).2 =
        .value_error msg) ↔ (atleast_1d f).length ≠ 1) ∧
    ((atleast_1d f).length ≠ 1 →
      (interactive_hist_model f paramNames ix iy).1 = []) ∧
    ((atleast_1d f).length = 1 →
      (interactive_hist_model f paramNames ix iy).2 = .ret_controls) := by
  by_cases h : (atleast_1d f).length = 1 <;>
    simp [interactive_hist_model, h]

/-- C10 witness: an empty sequence of functions raises before any state is
created, and a single function succeeds. -/
theorem hist_single_function_check_witness :
    ((atleast_1d (FuncArg.seq [])).length ≠ 1 →
      (interactive_hist_model (.seq []) ["tau"] (0, 1) (0, 1)).1 = []) ∧
    (interactive_hist_model (.seq []) ["tau"] (0, 1) (0, 1)).1 = [] :=
  ⟨(hist_single_function_check (.seq []) ["tau"] (0, 1) (0, 1)).2.1,
   (hist_single_function_check (.seq []) ["tau"] (0, 1) (0, 1)).2.1
     (by decide)⟩

end MplInteractions
